import Mathlib

/-!
Verification development for the Cura personal health tracker.

The embedding follows the Python sources:
- `src/data/sample_input.py` (`compute_framingham_risk`),
- `src/modules/scoring.py` (`calculate_lifestyle_score`),
- `src/modules/metrics.py` (`estimate_cvd_risk`, `calculate_metrics`),
- `src/modules/alerts.py` (`check_for_decline`),
- `src/modules/cvd_model.py` (`predict_cvd_risk`, runtime post-processing).

Numbers are modelled as exact rationals; the transcendental parts of the
Framingham equation (natural log, exp, powers) are modelled over the reals.
Python runtime errors (KeyError on a missing dict key, ValueError from
`math.log` on a non-positive argument, TypeError when a `None` obtained from
`dict.get` flows into a comparison or an addition, ZeroDivisionError) are
modelled with `Except` error values.
-/

/-- Round half to even to an integer, the rounding used by Python's builtin
`round` (ties go to the even integer). -/
def rheInt (q : ℚ) : ℤ :=
  let f := ⌊q⌋
  let r := q - f
  if r < 1/2 then f
  else if 1/2 < r then f + 1
  else if f % 2 = 0 then f else f + 1

/-- Python `round(x, 1)` on an exact rational. -/
def rhe1 (q : ℚ) : ℚ := (rheInt (10 * q) : ℚ) / 10

/-- Python `round(x, 2)` on an exact rational. -/
def rhe2 (q : ℚ) : ℚ := (rheInt (100 * q) : ℚ) / 100

/-- Round half to even on a real number (for `round(x, 2)` applied to a
square root in `calculate_metrics`). -/
noncomputable def rheIntR (x : ℝ) : ℤ :=
  let f := ⌊x⌋
  let r := x - f
  if r < 1/2 then f
  else if 1/2 < r then f + 1
  else if f % 2 = 0 then f else f + 1

/-- ASCII lower-casing of one character, Python `str.lower` on the
alphabetic ASCII strings the program compares ("Male", "Omnivore", ...). -/
def lowerChar (c : Char) : Char :=
  if 'A' ≤ c ∧ c ≤ 'Z' then Char.ofNat (c.toNat + 32) else c

/-- Python `str.lower` (ASCII range, which covers every string the code
compares against). -/
def lowerStr (s : String) : String := String.mk (s.data.map lowerChar)

/-- One logged day; `calculate_metrics` reads only its `Sleep_hours`. -/
structure DailyRecord where
  Sleep_hours : ℚ
deriving DecidableEq

/-- One snapshot of self-reported data: the `user` / `data` dictionary of the
Python sources. A field holds `none` when the corresponding key is absent
from the dictionary. -/
structure HealthRecord where
  Age : Option ℚ
  Gender : Option String
  Systolic_BP : Option ℚ
  Diastolic_BP : Option ℚ
  Resting_Heart_Rate : Option ℚ
  Height_cm : Option ℚ
  Weight_kg : Option ℚ
  Waist_cm : Option ℚ
  HDL_mg_dl : Option ℚ
  LDL_mg_dl : Option ℚ
  Triglycerides_mg_dl : Option ℚ
  Fasting_Glucose_mg_dl : Option ℚ
  HbA1c_percent : Option ℚ
  BP_Treated : Option Bool
  Cigarettes : Option ℚ
  Physical_activity_min : Option ℚ
  Fruits : Option ℚ
  Vegetables : Option ℚ
  Sleep_hours : Option ℚ
  Sleep_std_dev : Option ℚ
  Screen_hours : Option ℚ
  Alcohol_drinks : Option ℚ
  Water_glasses : Option ℚ
  Stress_level : Option ℚ
  Social_interactions : Option ℚ
  Sunlight_min : Option ℚ
  Caffeine_cups_per_day : Option ℚ
  Diet_type : Option String
  Sunlight_exposure_min_per_day : Option ℚ
  Daily_records : Option (List DailyRecord)
deriving DecidableEq

/-- A record with every key absent; concrete inputs are built from it. -/
def emptyRecord : HealthRecord :=
  ⟨none, none, none, none, none, none, none, none, none, none,
   none, none, none, none, none, none, none, none, none, none,
   none, none, none, none, none, none, none, none, none, none⟩

/-! ## Clinical Risk Model — `compute_framingham_risk` (src/data/sample_input.py) -/

/-- Runtime errors `compute_framingham_risk` can raise: `KeyError` from a
dict lookup (missing input key, or a sex absent from the coefficient table),
`ValueError: math domain error` from `math.log` on a non-positive argument,
and `ZeroDivisionError` from the BMI division when height is zero. -/
inductive FramErr where
  | keyError (k : String) : FramErr
  | mathDomainError : FramErr
  | zeroDivisionError : FramErr
deriving DecidableEq

/-- Coefficients of the lipid variant of the Framingham equation. -/
structure LipidCoefficients where
  age : ℚ
  total_chol : ℚ
  hdl_chol : ℚ
  sbp_treated : ℚ
  sbp_untreated : ℚ
  smoker : ℚ
  diabetes : ℚ
deriving DecidableEq

/-- Coefficients of the BMI variant of the Framingham equation. -/
structure BmiCoefficients where
  age : ℚ
  bmi : ℚ
  sbp_treated : ℚ
  sbp_untreated : ℚ
  smoker : ℚ
  diabetes : ℚ
deriving DecidableEq

/-- Parameters of one (sex, lipid) table entry. -/
structure LipidParams where
  coefficients : LipidCoefficients
  baseline_survival : ℚ
  mean_xbeta : ℚ
deriving DecidableEq

/-- Parameters of one (sex, bmi) table entry. -/
structure BmiParams where
  coefficients : BmiCoefficients
  baseline_survival : ℚ
  mean_xbeta : ℚ
deriving DecidableEq

/-- One sex bucket of the coefficient table. -/
structure SexParams where
  lipid : LipidParams
  bmi : BmiParams
deriving DecidableEq

/-- Modelled from the spec: the coefficient table `framingham_params.json`
is consumed read-only by `compute_framingham_risk` but the file itself is
not part of the sources; its shape is the spec's
`{sex: {lipid|bmi: {coefficients, baseline_survival, mean_xbeta}}}` and its
values are the published female general-CVD coefficients of the paper the
source cites (D'Agostino et al., Circulation 2008). -/
def framingham_params_female : SexParams :=
  ⟨⟨⟨2.32888, 1.20904, -0.70833, 2.82263, 2.76157, 0.52873, 0.69154⟩,
    0.95012, 26.1931⟩,
   ⟨⟨2.72107, 0.51125, 2.88267, 2.81291, 0.61868, 0.77763⟩,
    0.94833, 26.0145⟩⟩

/-- Modelled from the spec: male bucket of the coefficient table (see
`framingham_params_female`). -/
def framingham_params_male : SexParams :=
  ⟨⟨⟨3.06117, 1.12370, -0.93263, 1.99881, 1.93303, 0.65451, 0.57367⟩,
    0.88936, 23.9802⟩,
   ⟨⟨3.11296, 0.79277, 1.92672, 1.85508, 0.70953, 0.53160⟩,
    0.88431, 23.9388⟩⟩

/-- `FRAMINGHAM_PARAMS[sex]`: the table has exactly the keys "male" and
"female"; any other sex string raises `KeyError`. -/
def lookupSexParams (sex : String) : Except FramErr SexParams :=
  if sex = "male" then .ok framingham_params_male
  else if sex = "female" then .ok framingham_params_female
  else .error (.keyError sex)

/-- The dictionary `compute_framingham_risk` returns. `risk` is the fraction
`1 - s0 ** exp(xb - mean_xb)` (the demonstration caller multiplies it by 100
for display). -/
structure FramResult where
  sex : String
  model : String
  xb : ℝ
  mean_xb : ℚ
  risk : ℝ
  baseline_survival : ℚ

/-- The linear predictor of the lipid variant: the coefficient-weighted sum
of `log age`, `log total_chol`, `log hdl`, `log sbp` (treated or untreated
coefficient by the `BP_Treated` flag) plus the smoker and diabetes
indicator terms, exactly as accumulated into `xb` by the source. -/
noncomputable def lipidXb (c : LipidCoefficients) (treated : Bool)
    (smoker diabetes age total_chol hdl sbp : ℚ) : ℝ :=
  (c.age : ℝ) * Real.log (age : ℝ)
  + (c.total_chol : ℝ) * Real.log (total_chol : ℝ)
  + (c.hdl_chol : ℝ) * Real.log (hdl : ℝ)
  + ((if treated then c.sbp_treated else c.sbp_untreated : ℚ) : ℝ) * Real.log (sbp : ℝ)
  + (c.smoker : ℝ) * (smoker : ℝ)
  + (c.diabetes : ℝ) * (diabetes : ℝ)

/-- The linear predictor of the BMI variant. -/
noncomputable def bmiXb (c : BmiCoefficients) (treated : Bool)
    (smoker diabetes age bmi sbp : ℚ) : ℝ :=
  (c.age : ℝ) * Real.log (age : ℝ)
  + (c.bmi : ℝ) * Real.log (bmi : ℝ)
  + ((if treated then c.sbp_treated else c.sbp_untreated : ℚ) : ℝ) * Real.log (sbp : ℝ)
  + (c.smoker : ℝ) * (smoker : ℝ)
  + (c.diabetes : ℝ) * (diabetes : ℝ)

/-- `risk = 1 - s0 ** exp(xb - mean_xb)` of the source. -/
noncomputable def hazardRisk (s0 mean_xb : ℚ) (xb : ℝ) : ℝ :=
  1 - (s0 : ℝ) ^ Real.exp (xb - (mean_xb : ℝ))

/-- The lipid branch of `compute_framingham_risk`: Friedewald total
cholesterol, table lookup, then the four `math.log` calls in source order
(age, total cholesterol, HDL, SBP), each raising `ValueError` when its
argument is not strictly positive. -/
noncomputable def framLipid (sex : String) (sbp : ℚ) (treated : Bool)
    (smoker diabetes age hdl ldl tg : ℚ) : Except FramErr FramResult :=
  let total_chol := ldl + hdl + tg / 5
  match lookupSexParams sex with
  | .error e => .error e
  | .ok params =>
    let p := params.lipid
    if age ≤ 0 then .error .mathDomainError
    else if total_chol ≤ 0 then .error .mathDomainError
    else if hdl ≤ 0 then .error .mathDomainError
    else if sbp ≤ 0 then .error .mathDomainError
    else
      let xb := lipidXb p.coefficients treated smoker diabetes age total_chol hdl sbp
      .ok ⟨sex, "lipid", xb, p.mean_xbeta, hazardRisk p.baseline_survival p.mean_xbeta xb,
           p.baseline_survival⟩

/-- The BMI branch of `compute_framingham_risk`: `Height_cm` and `Weight_kg`
key lookups, BMI division (ZeroDivisionError at zero height), table lookup,
then the three `math.log` calls in source order (age, BMI, SBP). -/
noncomputable def framBmi (sex : String) (sbp : ℚ) (treated : Bool)
    (smoker diabetes age : ℚ) (heightO weightO : Option ℚ) : Except FramErr FramResult :=
  match heightO with
  | none => .error (.keyError "Height_cm")
  | some height_cm =>
    let height_m := height_cm / 100
    match weightO with
    | none => .error (.keyError "Weight_kg")
    | some weight_kg =>
      if height_m ^ 2 = 0 then .error .zeroDivisionError
      else
        let bmi := weight_kg / height_m ^ 2
        match lookupSexParams sex with
        | .error e => .error e
        | .ok params =>
          let p := params.bmi
          if age ≤ 0 then .error .mathDomainError
          else if bmi ≤ 0 then .error .mathDomainError
          else if sbp ≤ 0 then .error .mathDomainError
          else
            let xb := bmiXb p.coefficients treated smoker diabetes age bmi sbp
            .ok ⟨sex, "bmi", xb, p.mean_xbeta, hazardRisk p.baseline_survival p.mean_xbeta xb,
                 p.baseline_survival⟩

/-- `compute_framingham_risk` of `src/data/sample_input.py`: sex defaults to
"Male" and is lower-cased; `Systolic_BP` and `Age` are hard key lookups;
`BP_Treated`, `Cigarettes`, `Fasting_Glucose_mg_dl` and `HbA1c_percent` are
`get`s with defaults; the lipid variant is chosen exactly when all three of
`HDL_mg_dl`, `LDL_mg_dl`, `Triglycerides_mg_dl` are present. -/
noncomputable def compute_framingham_risk (u : HealthRecord) : Except FramErr FramResult :=
  let sex := lowerStr (u.Gender.getD "Male")
  match u.Systolic_BP with
  | none => .error (.keyError "Systolic_BP")
  | some sbp =>
    let treated := u.BP_Treated.getD false
    let smoker : ℚ := if u.Cigarettes.getD 0 > 0 then 1 else 0
    let diabetes : ℚ :=
      if u.Fasting_Glucose_mg_dl.getD 0 ≥ 126 ∨ u.HbA1c_percent.getD 0 ≥ 13/2 then 1 else 0
    match u.Age with
    | none => .error (.keyError "Age")
    | some age =>
      match u.HDL_mg_dl, u.LDL_mg_dl, u.Triglycerides_mg_dl with
      | some hdl, some ldl, some tg =>
        framLipid sex sbp treated smoker diabetes age hdl ldl tg
      | _, _, _ =>
        framBmi sex sbp treated smoker diabetes age u.Height_cm u.Weight_kg

/-- The sex string the function derives from the record. -/
def sexOf (u : HealthRecord) : String := lowerStr (u.Gender.getD "Male")

/-- The risk fraction of a successful run (0 on an error, used only to state
monotonicity of successful runs). -/
noncomputable def riskOf (u : HealthRecord) : ℝ :=
  match compute_framingham_risk u with
  | .ok o => o.risk
  | .error _ => 0

/-! ## Composite Lifestyle Scorer — `calculate_lifestyle_score` (src/modules/scoring.py) -/

/-- Block 1, physical activity (max 20 pts); absent field contributes 0. -/
def activityScore (data : HealthRecord) : ℚ :=
  match data.Physical_activity_min with
  | none => 0
  | some pa => if pa ≥ 150 then 20 else if pa ≥ 90 then 14 else 5

/-- Block 2, smoking (max 15 pts). -/
def smokingScore (data : HealthRecord) : ℚ :=
  match data.Cigarettes with
  | none => 0
  | some cig => if cig = 0 then 15 else if cig ≤ 5 then 8 else 2

/-- Block 3, diet quality (max 15 pts); `Fruits` and `Vegetables` default
to `0.0` via `dict.get`. -/
def dietScore (data : HealthRecord) : ℚ :=
  let fruits := data.Fruits.getD 0
  let vegs := data.Vegetables.getD 0
  let diet_fraction := min (fruits / 2) 1 * (1/2) + min (vegs / 3) 1 * (1/2)
  diet_fraction * 15

/-- Block 4, sleep duration and regularity (max 12 pts): tier base plus a
+2 bonus when a sleep standard deviation is present and below one hour. -/
def sleepScore (data : HealthRecord) : ℚ :=
  match data.Sleep_hours with
  | none => 0
  | some sleep =>
    let base : ℚ :=
      if 7 ≤ sleep ∧ sleep ≤ 9 then 10
      else if (6 ≤ sleep ∧ sleep < 7) ∨ (9 < sleep ∧ sleep ≤ 10) then 6
      else 3
    let bonus : ℚ := match data.Sleep_std_dev with
      | some std_dev_sleep => if std_dev_sleep < 1 then 2 else 0
      | none => 0
    base + bonus

/-- Block 5, screen time (max 8 pts). -/
def screenScore (data : HealthRecord) : ℚ :=
  match data.Screen_hours with
  | none => 0
  | some screen => if screen ≤ 4 then 8 else if screen ≤ 8 then 5 else 2

/-- Block 6, alcohol (max 8 pts). -/
def alcoholScore (data : HealthRecord) : ℚ :=
  match data.Alcohol_drinks with
  | none => 0
  | some alc => if alc = 0 then 8 else if alc ≤ 7 then 5 else 1

/-- Block 7, hydration (max 5 pts); `Water_glasses` defaults to `0.0`. -/
def hydrationScore (data : HealthRecord) : ℚ :=
  min (data.Water_glasses.getD 0 / 8) 1 * 5

/-- Block 8, stress (max 5 pts). -/
def stressScore (data : HealthRecord) : ℚ :=
  match data.Stress_level with
  | none => 0
  | some stress => max 0 ((10 - stress) / 9) * 5

/-- Block 9, social interactions (max 4 pts). -/
def socialScore (data : HealthRecord) : ℚ :=
  match data.Social_interactions with
  | none => 0
  | some social => min (social / 5) 1 * 4

/-- Block 10, bonus points (max 3 pts): sunlight, caffeine and a recognized
diet type (`Diet_type` defaults to the empty string before lower-casing). -/
def bonusScore (data : HealthRecord) : ℚ :=
  let sunlightBonus : ℚ := match data.Sunlight_min with
    | some sunlight => if sunlight ≥ 30 then 1 else 0
    | none => 0
  let caffeineBonus : ℚ := match data.Caffeine_cups_per_day with
    | some caffeine => if caffeine ≤ 3 then 1 else 0
    | none => 0
  let dietTypeBonus : ℚ :=
    if lowerStr (data.Diet_type.getD "") ∈ ["vegetarian", "vegan", "omnivore"] then 1 else 0
  sunlightBonus + caffeineBonus + dietTypeBonus

/-- The accumulated `score` variable just before the final line of
`calculate_lifestyle_score`. -/
def lifestyle_sum (data : HealthRecord) : ℚ :=
  activityScore data + smokingScore data + dietScore data + sleepScore data
  + screenScore data + alcoholScore data + hydrationScore data + stressScore data
  + socialScore data + bonusScore data

/-- `calculate_lifestyle_score`: ten sub-score blocks accumulated into
`score`, then `round(min(score, max_score), 1)` with `max_score = 100`. A
block guarded by `if <field> is not None` contributes nothing when its
field is absent. -/
def calculate_lifestyle_score (data : HealthRecord) : ℚ :=
  rhe1 (min (lifestyle_sum data) 100)

/-! ## Metric Aggregator — `estimate_cvd_risk`, `calculate_metrics` (src/modules/metrics.py) -/

/-- Runtime errors of `calculate_metrics`: `KeyError` from `data[key]` on an
absent key, `TypeError` when a `None` from `data.get(key)` flows into a
comparison or addition, `ZeroDivisionError` from the BMI division. -/
inductive MetricsErr where
  | keyError (k : String) : MetricsErr
  | typeError : MetricsErr
  | zeroDivisionError : MetricsErr
deriving DecidableEq

/-- `estimate_cvd_risk` of `src/modules/metrics.py`: the heuristic additive
risk score; every field is a `dict.get` with a default, so a missing field
never fails — only a zero height (BMI division) does. -/
def estimate_cvd_risk (data : HealthRecord) : Except MetricsErr ℚ :=
  let age := data.Age.getD 30
  let riskAge := max (age - 30) 0 * (1/2)
  let riskGender : ℚ := if lowerStr (data.Gender.getD "Female") = "male" then 5 else 0
  let height_m := data.Height_cm.getD 170 / 100
  let weight_kg := data.Weight_kg.getD 70
  if height_m ^ 2 = 0 then .error .zeroDivisionError
  else
    let bmi := weight_kg / height_m ^ 2
    let riskBmi : ℚ := if bmi ≥ 30 then 5 else if bmi ≥ 25 then 2 else 0
    let sbp := data.Systolic_BP.getD 120
    let dbp := data.Diastolic_BP.getD 80
    let riskBp : ℚ := if sbp ≥ 140 ∨ dbp ≥ 90 then 5 else if sbp ≥ 120 ∨ dbp ≥ 80 then 2 else 0
    let hdl := data.HDL_mg_dl.getD 50
    let ldl := data.LDL_mg_dl.getD 100
    let triglycerides := data.Triglycerides_mg_dl.getD 150
    let riskHdl : ℚ := if hdl < 40 then 3 else 0
    let riskLdl : ℚ := if ldl ≥ 160 then 5 else if ldl ≥ 130 then 2 else 0
    let riskTg : ℚ := if triglycerides ≥ 200 then 2 else 0
    let glucose := data.Fasting_Glucose_mg_dl.getD 100
    let hba1c := data.HbA1c_percent.getD 5
    let riskSugar : ℚ :=
      if glucose ≥ 126 ∨ hba1c ≥ 13/2 then 5
      else if glucose ≥ 100 ∨ hba1c ≥ 57/10 then 2 else 0
    let riskSmoke : ℚ := if data.Cigarettes.getD 0 > 0 then 5 else 0
    let riskAlc : ℚ := if data.Alcohol_drinks.getD 0 ≥ 7 then 3 else 0
    let riskAct : ℚ := if data.Physical_activity_min.getD 0 < 150 then 2 else 0
    let sleep_hours := data.Sleep_hours.getD 7
    let riskSleep : ℚ := if sleep_hours < 6 ∨ sleep_hours > 9 then 1 else 0
    let riskDiet : ℚ := if data.Fruits.getD 0 + data.Vegetables.getD 0 < 5 then 2 else 0
    let stress := data.Stress_level.getD 5
    let riskStress := max 0 ((stress - 5) * (1/2))
    let riskScreen : ℚ := if data.Screen_hours.getD 5 > 8 then 1 else 0
    .ok (min (riskAge + riskGender + riskBmi + riskBp + riskHdl + riskLdl + riskTg
          + riskSugar + riskSmoke + riskAlc + riskAct + riskSleep + riskDiet
          + riskStress + riskScreen) 100)

/-- `round(statistics.pstdev(sleep_list), 2)`: population standard deviation
of the logged sleep hours, rounded to two decimals. -/
noncomputable def pstdevRounded (l : List ℚ) : ℝ :=
  let n : ℚ := l.length
  let mu := l.sum / n
  let variance := (l.map (fun x => (x - mu) ^ 2)).sum / n
  (rheIntR (100 * Real.sqrt (variance : ℝ)) : ℝ) / 100

/-- The metrics dictionary produced by `calculate_metrics`. -/
structure MetricsRecord where
  BMI : ℚ
  BMI_category : String
  WHtR : ℚ
  WHtR_risk : String
  WHtR_risk_value : ℚ
  BP_category : String
  BP_risk_score : ℚ
  Resting_Heart_Rate : ℚ
  Heart_Rate_Risk : String
  Estimated_RR_increment_pct : ℚ
  Sleep_hours_avg : ℚ
  Sleep_quality : String
  Sleep_std_dev : Option ℝ
  Screen_hours_avg : ℚ
  Sedentary_risk_flag : Bool
  Diet_FV_servings_avg : ℚ
  Diet_quality : String
  Water_glasses_avg : ℚ
  Hydration_flag : Bool
  Lifestyle_score : ℚ
  CVD_risk : ℚ
  Sunlight_min_avg : Option ℚ
  Caffeine_cups : Option ℚ

/-- `calculate_metrics` of `src/modules/metrics.py`, keeping the source's
evaluation order: hard key lookups (`data[...]`) for weight, height, waist,
both blood pressures and resting heart rate; `data.get(...)` without a
default for the lifestyle fields, whose `None` then hits a comparison or
addition (TypeError). `Daily_records` is optional; an empty or absent list
leaves `Sleep_std_dev` as `None`. -/
noncomputable def calculate_metrics (data : HealthRecord) : Except MetricsErr MetricsRecord :=
  match data.Weight_kg with
  | none => .error (.keyError "Weight_kg")
  | some weight =>
  match data.Height_cm with
  | none => .error (.keyError "Height_cm")
  | some height =>
  if (height / 100) ^ 2 = 0 then .error .zeroDivisionError
  else
  let bmi := weight / (height / 100) ^ 2
  let bmiCat :=
    if bmi < 37/2 then "Underweight"
    else if bmi < 25 then "Normal"
    else if bmi < 30 then "Overweight"
    else if bmi < 35 then "Obese Class I"
    else if bmi < 40 then "Obese Class II"
    else "Obese Class III"
  match data.Waist_cm with
  | none => .error (.keyError "Waist_cm")
  | some waist =>
  let whtr := waist / height
  let whtrRisk :=
    if whtr < 1/2 then "Low"
    else if whtr < 3/5 then "Increased"
    else "Very High"
  match data.Systolic_BP with
  | none => .error (.keyError "Systolic_BP")
  | some sbp =>
  match data.Diastolic_BP with
  | none => .error (.keyError "Diastolic_BP")
  | some dbp =>
  let bpCat :=
    if sbp < 120 ∧ dbp < 80 then "Normal"
    else if 120 ≤ sbp ∧ sbp < 130 ∧ dbp < 80 then "Elevated"
    else if (130 ≤ sbp ∧ sbp < 140) ∨ (80 ≤ dbp ∧ dbp < 90) then "Hypertension Stage 1"
    else "Hypertension Stage 2 or higher"
  let bpRisk := rhe2 (max 0 ((sbp - 120) / 20 + (dbp - 80) / 10))
  match data.Resting_Heart_Rate with
  | none => .error (.keyError "Resting_Heart_Rate")
  | some rhr =>
  let hrRisk := if rhr ≤ 60 then "Optimal" else if rhr ≤ 80 then "Moderate" else "High"
  let rr_increment := max 0 (rhr - 70) / 10
  match data.Sleep_hours with
  | none => .error .typeError
  | some sleep_hrs =>
  let sleepQuality :=
    if 7 ≤ sleep_hrs ∧ sleep_hrs ≤ 9 then "Adequate"
    else if sleep_hrs < 6 then "Insufficient"
    else "Excessive"
  let sleepStd : Option ℝ :=
    match data.Daily_records with
    | some (d :: ds) => some (pstdevRounded ((d :: ds).map DailyRecord.Sleep_hours))
    | _ => none
  match data.Screen_hours with
  | none => .error .typeError
  | some screen_avg =>
  match data.Fruits with
  | none => .error .typeError
  | some fruits =>
  match data.Vegetables with
  | none => .error .typeError
  | some vegetables =>
  let fv_avg := fruits + vegetables
  let dietQuality :=
    if fv_avg ≥ 10 then "Excellent"
    else if fv_avg ≥ 7 then "Good"
    else if fv_avg ≥ 4 then "Moderate"
    else "Poor"
  match data.Water_glasses with
  | none => .error .typeError
  | some water_avg =>
  match estimate_cvd_risk data with
  | .error e => .error e
  | .ok cvd =>
  .ok ⟨bmi, bmiCat, whtr, whtrRisk, rhe2 whtr, bpCat, bpRisk, rhr, hrRisk,
       rhe1 (rr_increment * 17), sleep_hrs, sleepQuality, sleepStd, screen_avg,
       decide (screen_avg > 10), rhe1 fv_avg, dietQuality, water_avg,
       decide (water_avg < 8), calculate_lifestyle_score data, cvd,
       data.Sunlight_exposure_min_per_day, data.Caffeine_cups_per_day⟩

/-! ## Trend / Decline Detector — `check_for_decline` (src/modules/alerts.py) -/

/-- One row of the loaded history frame: the merged data/metrics dictionary;
`row.get(metric)` is an association-list lookup. -/
def HistoryRow : Type := List (String × ℚ)

/-- Format a non-negative rational with one decimal, Python `f"{x:.1f}"`. -/
def fmt1 (q : ℚ) : String :=
  let n := rheInt (10 * q)
  toString (n / 10) ++ "." ++ toString (n % 10)

/-- The percent-change line of `check_for_decline`:
`((new_val - old_val) / old_val) * 100 if old_val != 0 else 0`. -/
def changePct (old_val new_val : ℚ) : ℚ :=
  if old_val ≠ 0 then (new_val - old_val) / old_val * 100 else 0

/-- One iteration of the metric loop of `check_for_decline`: skip the metric
when either row lacks it, otherwise append an alert exactly when the percent
change is below `-threshold_pct`. -/
def declineAlert (threshold_pct : ℚ) (oldRow newRow : HistoryRow) (metric : String) :
    Option String :=
  match List.lookup metric oldRow, List.lookup metric newRow with
  | some old_val, some new_val =>
    let change_pct := changePct old_val new_val
    if change_pct < -threshold_pct then
      some ("⚠️ " ++ metric ++ " decreased by " ++ fmt1 |change_pct| ++ "% since last entry.")
    else none
  | _, _ => none

/-- The default `metrics_to_check` list of `check_for_decline`. -/
def default_metrics_to_check : List String :=
  ["Lifestyle_score", "BMI", "Sleep_hours_per_night", "Physical_Activity_min_per_week"]

/-- `check_for_decline` of `src/modules/alerts.py`: with fewer than two
history rows it prints a message and returns `None`; otherwise it compares
the last two rows per tracked metric and returns the alert list. -/
def check_for_decline (history : List HistoryRow) (metrics_to_check : List String)
    (threshold_pct : ℚ) : Option (List String) :=
  if history.length < 2 then none
  else
    match history.drop (history.length - 2) with
    | [oldRow, newRow] =>
      some (metrics_to_check.filterMap (declineAlert threshold_pct oldRow newRow))
    | _ => none

/-! ## Learned Risk Classifier — runtime post-processing of `predict_cvd_risk`
(src/modules/cvd_model.py). The XGBoost model itself is an opaque external
artifact; `prob` below is the probability `model.predict_proba` returns for
an input, and the definitions cover everything `predict_cvd_risk` does with
it afterwards. -/

/-- `np.clip(value, lo, hi)`. -/
def np_clip (v lo hi : ℚ) : ℚ := min (max v lo) hi

/-- The label-polarity flip followed by the clip of `predict_cvd_risk`:
`if prob > 0.5: prob = 1 - prob`, then `np.clip(prob, 0.001, 0.999)`. -/
def predict_postprocess_prob (prob : ℚ) : ℚ :=
  let p := if prob > 1/2 then 1 - prob else prob
  np_clip p (1/1000) (999/1000)

/-- `risk_percent = round(prob * 100, 1)`, the value `predict_cvd_risk`
returns. -/
def predict_risk_percent (prob : ℚ) : ℚ :=
  rhe1 (predict_postprocess_prob prob * 100)

/-- The interpretability ladder of `predict_cvd_risk`. -/
def risk_level (risk_percent : ℚ) : String :=
  if risk_percent < 10 then "Low"
  else if risk_percent < 20 then "Mild"
  else if risk_percent < 40 then "Moderate"
  else if risk_percent < 60 then "Elevated"
  else "High"

/-! ## Concrete inputs used by the witnesses and counterexamples -/

/-- Scenario A of the spec: the "Healthy Female" test case of
`src/data/sample_input.py`. -/
def scenarioA : HealthRecord :=
  { emptyRecord with
    Gender := some "Female", Age := some 32, Systolic_BP := some 112,
    BP_Treated := some false, HDL_mg_dl := some 58, LDL_mg_dl := some 110,
    Triglycerides_mg_dl := some 95, Fasting_Glucose_mg_dl := some 88,
    HbA1c_percent := some 5.1, Cigarettes := some 0,
    Height_cm := some 165, Weight_kg := some 62 }

/-- Scenario B of the spec: the concrete lifestyle-scorer input. -/
def scenarioB : HealthRecord :=
  { emptyRecord with
    Physical_activity_min := some 150, Cigarettes := some 0,
    Fruits := some 2, Vegetables := some 3, Sleep_hours := some 8,
    Sleep_std_dev := some 0.5, Screen_hours := some 4,
    Alcohol_drinks := some 0, Water_glasses := some 8,
    Stress_level := some 5, Social_interactions := some 5,
    Sunlight_min := some 30, Caffeine_cups_per_day := some 2,
    Diet_type := some "Omnivore" }

/-- A record whose only present lifestyle field is a negative fruit intake. -/
def negativeFruitRecord : HealthRecord := { emptyRecord with Fruits := some (-100) }

/-- A male record that is not lipid-complete (no triglycerides). -/
def recMissingTg : HealthRecord :=
  { emptyRecord with
    Gender := some "Male", Age := some 45, Systolic_BP := some 130,
    HDL_mg_dl := some 46, LDL_mg_dl := some 145,
    Height_cm := some 175, Weight_kg := some 80 }

/-- A lipid-complete female record with a negative HDL but positive age,
positive total cholesterol and positive systolic blood pressure. -/
def recNegativeHdl : HealthRecord :=
  { emptyRecord with
    Gender := some "Female", Age := some 40, Systolic_BP := some 120,
    HDL_mg_dl := some (-10), LDL_mg_dl := some 200, Triglycerides_mg_dl := some 50 }

/-- A lipid-complete record whose sex string is outside {male, female}. -/
def recOtherSex : HealthRecord :=
  { emptyRecord with
    Gender := some "Other", Age := some 40, Systolic_BP := some 120,
    HDL_mg_dl := some 50, LDL_mg_dl := some 100, Triglycerides_mg_dl := some 100 }

/-- A record for `calculate_metrics` with every required and lifestyle field
present except Age and Gender, which are absent. -/
def recNoAge : HealthRecord :=
  { emptyRecord with
    Height_cm := some 170, Weight_kg := some 70, Waist_cm := some 80,
    Systolic_BP := some 120, Diastolic_BP := some 80,
    Resting_Heart_Rate := some 70, Sleep_hours := some 8,
    Screen_hours := some 4, Fruits := some 2, Vegetables := some 3,
    Water_glasses := some 8 }

/-- A record for `calculate_metrics` missing its height. -/
def recNoHeight : HealthRecord :=
  { emptyRecord with
    Age := some 40, Gender := some "Male", Weight_kg := some 70,
    Waist_cm := some 80, Systolic_BP := some 120, Diastolic_BP := some 80,
    Resting_Heart_Rate := some 70, Sleep_hours := some 8,
    Screen_hours := some 4, Fruits := some 2, Vegetables := some 3,
    Water_glasses := some 8 }

/-- A complete record for `calculate_metrics`. -/
def recComplete : HealthRecord :=
  { emptyRecord with
    Age := some 40, Gender := some "Female", Height_cm := some 165,
    Weight_kg := some 62, Waist_cm := some 75, Systolic_BP := some 112,
    Diastolic_BP := some 72, Resting_Heart_Rate := some 64,
    Sleep_hours := some 8, Screen_hours := some 4, Fruits := some 2,
    Vegetables := some 3, Water_glasses := some 8 }

/-- History rows for the decline detector: the older row has a zero BMI
reading and the lifestyle score drops from 80 to 70. -/
def oldRowZeroBmi : HistoryRow := [("Lifestyle_score", 80), ("BMI", 0)]

/-- The newer history row. -/
def newRowZeroBmi : HistoryRow := [("Lifestyle_score", 70), ("BMI", 22)]

/-! ## Rounding lemmas -/

theorem le_rheInt {n : ℤ} {q : ℚ} (h : (n : ℚ) ≤ q) : n ≤ rheInt q := by
  have hf : n ≤ ⌊q⌋ := Int.le_floor.mpr h
  simp only [rheInt]
  split_ifs <;> omega

theorem rheInt_le {n : ℤ} {q : ℚ} (h : q ≤ (n : ℚ)) : rheInt q ≤ n := by
  have hf : ⌊q⌋ ≤ n := by
    have h2 : ⌊q⌋ ≤ ⌊(n : ℚ)⌋ := Int.floor_le_floor h
    simpa using h2
  have hf2 : ¬(q - (⌊q⌋ : ℚ) < 1/2) → ⌊q⌋ + 1 ≤ n := by
    intro hr
    have h1 : (1 : ℚ)/2 ≤ q - (⌊q⌋ : ℚ) := not_lt.mp hr
    have h3 : ((⌊q⌋ : ℤ) : ℚ) < (n : ℚ) := by linarith
    exact Int.add_one_le_iff.mpr (by exact_mod_cast h3)
  simp only [rheInt]
  split_ifs with h1 h2 h3
  · exact hf
  · exact hf2 h1
  · exact hf
  · exact hf2 h1

theorem le_rhe1 {n : ℤ} {q : ℚ} (h : (n : ℚ) ≤ 10 * q) : (n : ℚ) / 10 ≤ rhe1 q := by
  have h1 : n ≤ rheInt (10 * q) := le_rheInt h
  have h2 : (n : ℚ) ≤ (rheInt (10 * q) : ℚ) := by exact_mod_cast h1
  simp only [rhe1]
  linarith

theorem rhe1_le {n : ℤ} {q : ℚ} (h : 10 * q ≤ (n : ℚ)) : rhe1 q ≤ (n : ℚ) / 10 := by
  have h1 : rheInt (10 * q) ≤ n := rheInt_le h
  have h2 : (rheInt (10 * q) : ℚ) ≤ (n : ℚ) := by exact_mod_cast h1
  simp only [rhe1]
  linarith

/-! ## C9 — the post-processing of `predict_cvd_risk` -/

theorem predict_postprocess_prob_bounds (prob : ℚ) :
    1/1000 ≤ predict_postprocess_prob prob ∧ predict_postprocess_prob prob ≤ 1/2 := by
  simp only [predict_postprocess_prob, np_clip]
  constructor
  · exact le_min (le_max_right _ _) (by norm_num)
  · have hple : (if prob > 1/2 then 1 - prob else prob) ≤ 1/2 := by
      split_ifs with h
      · linarith
      · linarith [not_lt.mp h]
    calc min (max (if prob > 1/2 then 1 - prob else prob) (1/1000)) (999/1000)
        ≤ max (if prob > 1/2 then 1 - prob else prob) (1/1000) := min_le_left _ _
      _ ≤ 1/2 := max_le hple (by norm_num)

/-- C9: whatever probability the trained model outputs, the runtime
label-polarity flip (`prob = 1 - prob` when `prob > 0.5`) followed by the
clip to `[0.001, 0.999]` keeps the returned risk percentage inside
`[0.1, 50.0]`; hence the "High" level (≥ 60) is unreachable and the
"Elevated" level is only reported for percentages in `[40, 50]`. -/
theorem C9_flip_bounds_risk_percent (prob : ℚ) :
    1/10 ≤ predict_risk_percent prob ∧ predict_risk_percent prob ≤ 50 ∧
    risk_level (predict_risk_percent prob) ≠ "High" ∧
    (risk_level (predict_risk_percent prob) = "Elevated" →
      40 ≤ predict_risk_percent prob ∧ predict_risk_percent prob ≤ 50) := by
  obtain ⟨hlo, hhi⟩ := predict_postprocess_prob_bounds prob
  have h1 : 1/10 ≤ predict_risk_percent prob := by
    have := le_rhe1 (n := 1) (q := predict_postprocess_prob prob * 100) (by push_cast; linarith)
    simpa [predict_risk_percent] using this
  have h2 : predict_risk_percent prob ≤ 50 := by
    have := rhe1_le (n := 500) (q := predict_postprocess_prob prob * 100) (by push_cast; linarith)
    simp only [predict_risk_percent]
    linarith [this]
  refine ⟨h1, h2, ?_, ?_⟩
  · simp only [risk_level]
    split_ifs with ha hb hc hd
    all_goals first
      | exact fun h => absurd h (by decide)
      | (exact absurd h2 (by push_neg at hd ⊢; linarith))
  · simp only [risk_level]
    split_ifs with ha hb hc hd
    all_goals intro h
    all_goals first
      | exact absurd h (by decide)
      | exact ⟨by linarith [not_lt.mp hc], h2⟩

/-- C9 witness: the guarantee at the concrete model output 0.97. -/
theorem C9_flip_bounds_risk_percent_witness :
    1/10 ≤ predict_risk_percent (97/100) ∧ predict_risk_percent (97/100) ≤ 50 ∧
    risk_level (predict_risk_percent (97/100)) ≠ "High" ∧
    (risk_level (predict_risk_percent (97/100)) = "Elevated" →
      40 ≤ predict_risk_percent (97/100) ∧ predict_risk_percent (97/100) ≤ 50) :=
  C9_flip_bounds_risk_percent (97/100)

/-! ## C8 — zero old value in the decline detector -/

/-- C8: for a tracked metric whose older reading is exactly 0, the percent
change is taken to be 0 (the `else 0` arm of the source's conditional
expression, so the division by `old_val` is never performed), and with a
non-negative threshold that metric contributes no alert; the detector's
output on such a history is exactly the alerts of the other metrics. -/
theorem C8_zero_old_value (history : List HistoryRow) (oldRow newRow : HistoryRow)
    (metric : String) (names : List String) (threshold_pct : ℚ)
    (hthr : 0 ≤ threshold_pct)
    (hlast : history.drop (history.length - 2) = [oldRow, newRow])
    (hzero : List.lookup metric oldRow = some 0) :
    (∀ new_val : ℚ, changePct 0 new_val = 0) ∧
    declineAlert threshold_pct oldRow newRow metric = none ∧
    check_for_decline history names threshold_pct =
      some (names.filterMap (declineAlert threshold_pct oldRow newRow)) := by
  refine ⟨fun v => by simp [changePct], ?_, ?_⟩
  · simp only [declineAlert, hzero]
    cases hn : List.lookup metric newRow with
    | none => rfl
    | some new_val =>
      have hch : changePct 0 new_val = 0 := by simp [changePct]
      show (if changePct 0 new_val < -threshold_pct then
          some ("⚠️ " ++ metric ++ " decreased by " ++ fmt1 |changePct 0 new_val|
            ++ "% since last entry.")
        else none) = none
      rw [hch, if_neg (by linarith)]
  · have hlen : ¬ history.length < 2 := by
      intro hl
      have hlenEq : history.length - (history.length - 2) = 2 := by
        rw [← List.length_drop, hlast]
        rfl
      omega
    simp only [check_for_decline, if_neg hlen, hlast]

/-- C8 witness: a history whose older row carries a zero BMI reading. -/
theorem C8_zero_old_value_witness :
    changePct 0 22 = 0 ∧
    declineAlert 5 oldRowZeroBmi newRowZeroBmi "BMI" = none ∧
    check_for_decline [oldRowZeroBmi, newRowZeroBmi] default_metrics_to_check 5 =
      some (default_metrics_to_check.filterMap (declineAlert 5 oldRowZeroBmi newRowZeroBmi)) := by
  have h := C8_zero_old_value [oldRowZeroBmi, newRowZeroBmi] oldRowZeroBmi newRowZeroBmi
    "BMI" default_metrics_to_check 5 (by norm_num) rfl (by decide)
  exact ⟨h.1 22, h.2.1, h.2.2⟩

/-! ## C5 — concrete scenario B of the lifestyle scorer -/

theorem scenarioB_score : calculate_lifestyle_score scenarioB = 464/5 := by
  have hmem : lowerStr "Omnivore" ∈ ["vegetarian", "vegan", "omnivore"] := by decide
  norm_num [calculate_lifestyle_score, lifestyle_sum, activityScore, smokingScore,
    dietScore, sleepScore, screenScore, alcoholScore, hydrationScore, stressScore,
    socialScore, bonusScore, scenarioB, emptyRecord, hmem, min_def, max_def, rhe1, rheInt]

/-- C5 counterexample: on the spec's scenario-B input the scorer does not
return 97.8; the spec's listed sub-scores (20, 15, 15, 12, 8, 8, 5, 25/9, 4
and 3) sum to 92.78, not 97.8. -/
theorem C5_scenarioB_not_97_8 : calculate_lifestyle_score scenarioB ≠ 489/5 := by
  rw [scenarioB_score]
  norm_num

/-- C5 amended: on the scenario-B input `calculate_lifestyle_score` returns
92.8 — the rounded value of 20+15+15+12+8+8+5+25/9+4+3 = 92.77…. -/
theorem C5_scenarioB_score_92_8 : calculate_lifestyle_score scenarioB = 464/5 :=
  scenarioB_score

/-! ## C6 — range and reproducibility of the lifestyle scorer -/

theorem activityScore_nonneg (r : HealthRecord) : 0 ≤ activityScore r := by
  rcases h : r.Physical_activity_min with _ | pa <;> simp only [activityScore, h]
  · norm_num
  · split_ifs <;> norm_num

theorem smokingScore_nonneg (r : HealthRecord) : 0 ≤ smokingScore r := by
  rcases h : r.Cigarettes with _ | cig <;> simp only [smokingScore, h]
  · norm_num
  · split_ifs <;> norm_num

theorem dietScore_nonneg (r : HealthRecord) (hf : 0 ≤ r.Fruits.getD 0)
    (hv : 0 ≤ r.Vegetables.getD 0) : 0 ≤ dietScore r := by
  unfold dietScore
  have h1 : (0 : ℚ) ≤ min (r.Fruits.getD 0 / 2) 1 := le_min (by linarith) (by norm_num)
  have h2 : (0 : ℚ) ≤ min (r.Vegetables.getD 0 / 3) 1 := le_min (by linarith) (by norm_num)
  nlinarith

theorem sleepScore_nonneg (r : HealthRecord) : 0 ≤ sleepScore r := by
  rcases h : r.Sleep_hours with _ | sleep
  · simp [sleepScore, h]
  · rcases h2 : r.Sleep_std_dev with _ | sd <;> simp only [sleepScore, h, h2] <;>
      split_ifs <;> norm_num

theorem screenScore_nonneg (r : HealthRecord) : 0 ≤ screenScore r := by
  rcases h : r.Screen_hours with _ | screen <;> simp only [screenScore, h]
  · norm_num
  · split_ifs <;> norm_num

theorem alcoholScore_nonneg (r : HealthRecord) : 0 ≤ alcoholScore r := by
  rcases h : r.Alcohol_drinks with _ | alc <;> simp only [alcoholScore, h]
  · norm_num
  · split_ifs <;> norm_num

theorem hydrationScore_nonneg (r : HealthRecord) (hw : 0 ≤ r.Water_glasses.getD 0) :
    0 ≤ hydrationScore r := by
  unfold hydrationScore
  have h1 : (0 : ℚ) ≤ min (r.Water_glasses.getD 0 / 8) 1 := le_min (by linarith) (by norm_num)
  linarith

theorem stressScore_nonneg (r : HealthRecord) : 0 ≤ stressScore r := by
  rcases h : r.Stress_level with _ | stress <;> simp only [stressScore, h]
  · norm_num
  · have h1 : (0 : ℚ) ≤ max 0 ((10 - stress) / 9) := le_max_left _ _
    linarith

theorem socialScore_nonneg (r : HealthRecord) (hs : 0 ≤ r.Social_interactions.getD 0) :
    0 ≤ socialScore r := by
  rcases hso : r.Social_interactions with _ | social <;> simp only [socialScore, hso]
  · norm_num
  · rw [hso] at hs
    simp only [Option.getD_some] at hs
    have h1 : (0 : ℚ) ≤ min (social / 5) 1 :=
      le_min (div_nonneg hs (by norm_num)) (by norm_num)
    linarith

theorem bonusScore_nonneg (r : HealthRecord) : 0 ≤ bonusScore r := by
  unfold bonusScore
  refine add_nonneg (add_nonneg ?_ ?_) ?_
  · rcases h : r.Sunlight_min with _ | s <;> simp only [h]
    · norm_num
    · split_ifs <;> norm_num
  · rcases h : r.Caffeine_cups_per_day with _ | c <;> simp only [h]
    · norm_num
    · split_ifs <;> norm_num
  · split_ifs <;> norm_num

theorem lifestyle_sum_nonneg (r : HealthRecord) (hf : 0 ≤ r.Fruits.getD 0)
    (hv : 0 ≤ r.Vegetables.getD 0) (hw : 0 ≤ r.Water_glasses.getD 0)
    (hs : 0 ≤ r.Social_interactions.getD 0) : 0 ≤ lifestyle_sum r := by
  unfold lifestyle_sum
  have h1 := activityScore_nonneg r
  have h2 := smokingScore_nonneg r
  have h3 := dietScore_nonneg r hf hv
  have h4 := sleepScore_nonneg r
  have h5 := screenScore_nonneg r
  have h6 := alcoholScore_nonneg r
  have h7 := hydrationScore_nonneg r hw
  have h8 := stressScore_nonneg r
  have h9 := socialScore_nonneg r hs
  have h10 := bonusScore_nonneg r
  linarith

/-- C6 amended: on every record whose present `Fruits`, `Vegetables`,
`Water_glasses` and `Social_interactions` values are non-negative (missing
lifestyle fields are allowed and contribute zero), the score lies in
`[0, 100]`; on every record it equals `min(sum of sub-scores, 100)` rounded
to one decimal, and it is a pure function of the record (identical inputs
give identical outputs). For a negative present value of one of those four
fields the score can be negative (see the counterexample). -/
theorem C6_lifestyle_score_range (r : HealthRecord) (hf : 0 ≤ r.Fruits.getD 0)
    (hv : 0 ≤ r.Vegetables.getD 0) (hw : 0 ≤ r.Water_glasses.getD 0)
    (hs : 0 ≤ r.Social_interactions.getD 0) :
    0 ≤ calculate_lifestyle_score r ∧ calculate_lifestyle_score r ≤ 100 ∧
    calculate_lifestyle_score r = rhe1 (min (lifestyle_sum r) 100) ∧
    calculate_lifestyle_score r = calculate_lifestyle_score r := by
  have hmin0 : (0 : ℚ) ≤ min (lifestyle_sum r) 100 :=
    le_min (lifestyle_sum_nonneg r hf hv hw hs) (by norm_num)
  have hmin100 : min (lifestyle_sum r) 100 ≤ 100 := min_le_right _ _
  refine ⟨?_, ?_, rfl, rfl⟩
  · have := le_rhe1 (n := 0) (q := min (lifestyle_sum r) 100) (by push_cast; linarith)
    simpa [calculate_lifestyle_score] using this
  · have := rhe1_le (n := 1000) (q := min (lifestyle_sum r) 100) (by push_cast; linarith)
    rw [calculate_lifestyle_score]
    linarith [this]

/-- C6 counterexample: with a negative present `Fruits` value (every other
field absent) `calculate_lifestyle_score` returns −375, outside `[0, 100]`. -/
theorem C6_negative_fruit_breaks_range : calculate_lifestyle_score negativeFruitRecord < 0 := by
  have hnot : ¬(lowerStr "" ∈ ["vegetarian", "vegan", "omnivore"]) := by decide
  norm_num [calculate_lifestyle_score, lifestyle_sum, activityScore, smokingScore,
    dietScore, sleepScore, screenScore, alcoholScore, hydrationScore, stressScore,
    socialScore, bonusScore, negativeFruitRecord, emptyRecord, hnot,
    min_def, max_def, rhe1, rheInt]

/-- C6 witness: the amended range statement at the scenario-B record. -/
theorem C6_lifestyle_score_range_witness :
    0 ≤ calculate_lifestyle_score scenarioB ∧ calculate_lifestyle_score scenarioB ≤ 100 ∧
    calculate_lifestyle_score scenarioB = rhe1 (min (lifestyle_sum scenarioB) 100) ∧
    calculate_lifestyle_score scenarioB = calculate_lifestyle_score scenarioB :=
  C6_lifestyle_score_range scenarioB (by norm_num [scenarioB, emptyRecord])
    (by norm_num [scenarioB, emptyRecord]) (by norm_num [scenarioB, emptyRecord])
    (by norm_num [scenarioB, emptyRecord])

/-! ## Clinical Risk Model lemmas -/

theorem compute_lipid (u : HealthRecord) {sv av hv lv tv : ℚ}
    (hS : u.Systolic_BP = some sv) (hA : u.Age = some av)
    (hH : u.HDL_mg_dl = some hv) (hL : u.LDL_mg_dl = some lv)
    (hT : u.Triglycerides_mg_dl = some tv) :
    compute_framingham_risk u =
      framLipid (sexOf u) sv (u.BP_Treated.getD false)
        (if u.Cigarettes.getD 0 > 0 then 1 else 0)
        (if u.Fasting_Glucose_mg_dl.getD 0 ≥ 126 ∨ u.HbA1c_percent.getD 0 ≥ 13/2 then 1 else 0)
        av hv lv tv := by
  simp only [compute_framingham_risk, hS, hA, hH, hL, hT, sexOf]

theorem compute_bmi (u : HealthRecord) {sv av : ℚ}
    (hS : u.Systolic_BP = some sv) (hA : u.Age = some av)
    (hmiss : u.HDL_mg_dl = none ∨ u.LDL_mg_dl = none ∨ u.Triglycerides_mg_dl = none) :
    compute_framingham_risk u =
      framBmi (sexOf u) sv (u.BP_Treated.getD false)
        (if u.Cigarettes.getD 0 > 0 then 1 else 0)
        (if u.Fasting_Glucose_mg_dl.getD 0 ≥ 126 ∨ u.HbA1c_percent.getD 0 ≥ 13/2 then 1 else 0)
        av u.Height_cm u.Weight_kg := by
  rcases hh : u.HDL_mg_dl with _ | x <;> rcases hl : u.LDL_mg_dl with _ | y <;>
    rcases ht : u.Triglycerides_mg_dl with _ | z <;>
      simp_all [compute_framingham_risk, sexOf, hS, hA]

theorem lookupSexParams_ok_cases {sex : String} {p : SexParams}
    (hp : lookupSexParams sex = .ok p) :
    (sex = "male" ∧ p = framingham_params_male) ∨
    (sex = "female" ∧ p = framingham_params_female) := by
  unfold lookupSexParams at hp
  split_ifs at hp with h1 h2
  · exact Or.inl ⟨h1, by injection hp with h; exact h.symm⟩
  · exact Or.inr ⟨h2, by injection hp with h; exact h.symm⟩

theorem framLipid_pos {sex : String} {sbp : ℚ} {treated : Bool}
    {smoker diabetes age hdl ldl tg : ℚ} {p : SexParams}
    (hp : lookupSexParams sex = .ok p)
    (hage : 0 < age) (htot : 0 < ldl + hdl + tg / 5) (hhdl : 0 < hdl) (hsbp : 0 < sbp) :
    framLipid sex sbp treated smoker diabetes age hdl ldl tg =
      .ok ⟨sex, "lipid",
        lipidXb p.lipid.coefficients treated smoker diabetes age (ldl + hdl + tg / 5) hdl sbp,
        p.lipid.mean_xbeta,
        hazardRisk p.lipid.baseline_survival p.lipid.mean_xbeta
          (lipidXb p.lipid.coefficients treated smoker diabetes age (ldl + hdl + tg / 5) hdl sbp),
        p.lipid.baseline_survival⟩ := by
  simp only [framLipid, hp]
  rw [if_neg (not_le.mpr hage), if_neg (not_le.mpr htot), if_neg (not_le.mpr hhdl),
    if_neg (not_le.mpr hsbp)]

theorem framBmi_pos {sex : String} {sbp : ℚ} {treated : Bool}
    {smoker diabetes age height weight : ℚ} {p : SexParams}
    (hp : lookupSexParams sex = .ok p)
    (hage : 0 < age) (hh : 0 < height) (hw : 0 < weight) (hsbp : 0 < sbp) :
    framBmi sex sbp treated smoker diabetes age (some height) (some weight) =
      .ok ⟨sex, "bmi",
        bmiXb p.bmi.coefficients treated smoker diabetes age (weight / (height / 100) ^ 2) sbp,
        p.bmi.mean_xbeta,
        hazardRisk p.bmi.baseline_survival p.bmi.mean_xbeta
          (bmiXb p.bmi.coefficients treated smoker diabetes age (weight / (height / 100) ^ 2) sbp),
        p.bmi.baseline_survival⟩ := by
  have hden : (0 : ℚ) < (height / 100) ^ 2 := by positivity
  have hbmi : 0 < weight / (height / 100) ^ 2 := by positivity
  simp only [framBmi, hp]
  rw [if_neg (by linarith), if_neg (not_le.mpr hage), if_neg (not_le.mpr hbmi),
    if_neg (not_le.mpr hsbp)]

theorem hazardRisk_range {s0 m : ℚ} (xb : ℝ) (hs0 : 0 < s0) (hs1 : s0 ≤ 1) :
    0 ≤ hazardRisk s0 m xb ∧ hazardRisk s0 m xb ≤ 100 := by
  unfold hazardRisk
  have hpow1 : (s0 : ℝ) ^ Real.exp (xb - (m : ℝ)) ≤ 1 :=
    Real.rpow_le_one (by positivity) (by exact_mod_cast hs1) (Real.exp_pos _).le
  have hpow0 : 0 < (s0 : ℝ) ^ Real.exp (xb - (m : ℝ)) :=
    Real.rpow_pos_of_pos (by exact_mod_cast hs0) _
  constructor <;> linarith

/-! ## C1 — the lipid-variant formula and its range -/

/-- C1: on every lipid-complete record with all inputs in the log-defined
domain (positive age, Friedewald total cholesterol `LDL + HDL + TG/5`,
positive HDL and positive systolic BP) and a sex in the coefficient table,
`compute_framingham_risk` returns the lipid-variant result whose linear
predictor `xb` is the coefficient-weighted sum of `log age`,
`log(LDL + HDL + TG/5)`, `log HDL`, `log SBP` (treated coefficient iff
`BP_Treated`), the smoker indicator (`Cigarettes > 0`) and the diabetes
indicator (`Fasting_Glucose ≥ 126` or `HbA1c ≥ 6.5`), and whose risk is
`1 - S0 ^ exp(xb - mean_xb)`, a value inside `[0, 100]` (indeed inside
`[0, 1]`: the function returns the fraction, which the demonstration caller
scales by 100 for display). -/
theorem C1_lipid_formula (u : HealthRecord) (sv av hv lv tv : ℚ) (p : SexParams)
    (hS : u.Systolic_BP = some sv) (hA : u.Age = some av)
    (hH : u.HDL_mg_dl = some hv) (hL : u.LDL_mg_dl = some lv)
    (hT : u.Triglycerides_mg_dl = some tv)
    (hp : lookupSexParams (sexOf u) = .ok p)
    (hage : 0 < av) (htot : 0 < lv + hv + tv / 5) (hhdl : 0 < hv) (hsbp : 0 < sv) :
    compute_framingham_risk u =
      .ok ⟨sexOf u, "lipid",
        lipidXb p.lipid.coefficients (u.BP_Treated.getD false)
          (if u.Cigarettes.getD 0 > 0 then 1 else 0)
          (if u.Fasting_Glucose_mg_dl.getD 0 ≥ 126 ∨ u.HbA1c_percent.getD 0 ≥ 13/2 then 1 else 0)
          av (lv + hv + tv / 5) hv sv,
        p.lipid.mean_xbeta,
        hazardRisk p.lipid.baseline_survival p.lipid.mean_xbeta
          (lipidXb p.lipid.coefficients (u.BP_Treated.getD false)
            (if u.Cigarettes.getD 0 > 0 then 1 else 0)
            (if u.Fasting_Glucose_mg_dl.getD 0 ≥ 126 ∨ u.HbA1c_percent.getD 0 ≥ 13/2 then 1 else 0)
            av (lv + hv + tv / 5) hv sv),
        p.lipid.baseline_survival⟩ ∧
      0 ≤ hazardRisk p.lipid.baseline_survival p.lipid.mean_xbeta
          (lipidXb p.lipid.coefficients (u.BP_Treated.getD false)
            (if u.Cigarettes.getD 0 > 0 then 1 else 0)
            (if u.Fasting_Glucose_mg_dl.getD 0 ≥ 126 ∨ u.HbA1c_percent.getD 0 ≥ 13/2 then 1 else 0)
            av (lv + hv + tv / 5) hv sv) ∧
      hazardRisk p.lipid.baseline_survival p.lipid.mean_xbeta
          (lipidXb p.lipid.coefficients (u.BP_Treated.getD false)
            (if u.Cigarettes.getD 0 > 0 then 1 else 0)
            (if u.Fasting_Glucose_mg_dl.getD 0 ≥ 126 ∨ u.HbA1c_percent.getD 0 ≥ 13/2 then 1 else 0)
            av (lv + hv + tv / 5) hv sv) ≤ 100 := by
  have hs0 : 0 < p.lipid.baseline_survival ∧ p.lipid.baseline_survival ≤ 1 := by
    rcases lookupSexParams_ok_cases hp with ⟨_, hpe⟩ | ⟨_, hpe⟩ <;> subst hpe <;>
      constructor <;> norm_num [framingham_params_male, framingham_params_female]
  obtain ⟨hr0, hr100⟩ := hazardRisk_range _ hs0.1 hs0.2
  exact ⟨by rw [compute_lipid u hS hA hH hL hT, framLipid_pos hp hage htot hhdl hsbp],
    hr0, hr100⟩

/-- C1 witness: the guarantee at the concrete scenario-A record (the
"Healthy Female" test case). -/
theorem C1_lipid_formula_witness :
    compute_framingham_risk scenarioA =
      .ok ⟨sexOf scenarioA, "lipid",
        lipidXb framingham_params_female.lipid.coefficients (scenarioA.BP_Treated.getD false)
          (if scenarioA.Cigarettes.getD 0 > 0 then 1 else 0)
          (if scenarioA.Fasting_Glucose_mg_dl.getD 0 ≥ 126 ∨
              scenarioA.HbA1c_percent.getD 0 ≥ 13/2 then 1 else 0)
          32 (110 + 58 + 95 / 5) 58 112,
        framingham_params_female.lipid.mean_xbeta,
        hazardRisk framingham_params_female.lipid.baseline_survival
          framingham_params_female.lipid.mean_xbeta
          (lipidXb framingham_params_female.lipid.coefficients (scenarioA.BP_Treated.getD false)
            (if scenarioA.Cigarettes.getD 0 > 0 then 1 else 0)
            (if scenarioA.Fasting_Glucose_mg_dl.getD 0 ≥ 126 ∨
                scenarioA.HbA1c_percent.getD 0 ≥ 13/2 then 1 else 0)
            32 (110 + 58 + 95 / 5) 58 112),
        framingham_params_female.lipid.baseline_survival⟩ ∧
      0 ≤ hazardRisk framingham_params_female.lipid.baseline_survival
          framingham_params_female.lipid.mean_xbeta
          (lipidXb framingham_params_female.lipid.coefficients (scenarioA.BP_Treated.getD false)
            (if scenarioA.Cigarettes.getD 0 > 0 then 1 else 0)
            (if scenarioA.Fasting_Glucose_mg_dl.getD 0 ≥ 126 ∨
                scenarioA.HbA1c_percent.getD 0 ≥ 13/2 then 1 else 0)
            32 (110 + 58 + 95 / 5) 58 112) ∧
      hazardRisk framingham_params_female.lipid.baseline_survival
          framingham_params_female.lipid.mean_xbeta
          (lipidXb framingham_params_female.lipid.coefficients (scenarioA.BP_Treated.getD false)
            (if scenarioA.Cigarettes.getD 0 > 0 then 1 else 0)
            (if scenarioA.Fasting_Glucose_mg_dl.getD 0 ≥ 126 ∨
                scenarioA.HbA1c_percent.getD 0 ≥ 13/2 then 1 else 0)
            32 (110 + 58 + 95 / 5) 58 112) ≤ 100 :=
  C1_lipid_formula scenarioA 112 32 58 110 95 framingham_params_female rfl rfl rfl rfl rfl
    rfl (by norm_num) (by norm_num) (by norm_num) (by norm_num)

/-! ## C2 — a missing lab panel routes to the BMI variant -/

/-- C2: on every record missing at least one of `HDL_mg_dl`, `LDL_mg_dl`,
`Triglycerides_mg_dl` (with the BMI inputs present and positive and a sex in
the table), `compute_framingham_risk` succeeds with the BMI variant: the
returned model is "bmi" and its linear predictor reads only age, BMI and
SBP — no default lipid value is substituted into the equation, and no error
is raised merely because the lab panel is missing. -/
theorem C2_missing_lipid_routes_to_bmi (u : HealthRecord) (sv av hq wq : ℚ) (p : SexParams)
    (hmiss : u.HDL_mg_dl = none ∨ u.LDL_mg_dl = none ∨ u.Triglycerides_mg_dl = none)
    (hS : u.Systolic_BP = some sv) (hA : u.Age = some av)
    (hH : u.Height_cm = some hq) (hW : u.Weight_kg = some wq)
    (hp : lookupSexParams (sexOf u) = .ok p)
    (hage : 0 < av) (hh : 0 < hq) (hw : 0 < wq) (hsbp : 0 < sv) :
    compute_framingham_risk u =
      .ok ⟨sexOf u, "bmi",
        bmiXb p.bmi.coefficients (u.BP_Treated.getD false)
          (if u.Cigarettes.getD 0 > 0 then 1 else 0)
          (if u.Fasting_Glucose_mg_dl.getD 0 ≥ 126 ∨ u.HbA1c_percent.getD 0 ≥ 13/2 then 1 else 0)
          av (wq / (hq / 100) ^ 2) sv,
        p.bmi.mean_xbeta,
        hazardRisk p.bmi.baseline_survival p.bmi.mean_xbeta
          (bmiXb p.bmi.coefficients (u.BP_Treated.getD false)
            (if u.Cigarettes.getD 0 > 0 then 1 else 0)
            (if u.Fasting_Glucose_mg_dl.getD 0 ≥ 126 ∨ u.HbA1c_percent.getD 0 ≥ 13/2 then 1 else 0)
            av (wq / (hq / 100) ^ 2) sv),
        p.bmi.baseline_survival⟩ := by
  rw [compute_bmi u hS hA hmiss, hH, hW, framBmi_pos hp hage hh hw hsbp]

/-- C2 witness: the record missing its triglycerides routes to the BMI
variant and succeeds. -/
theorem C2_missing_lipid_routes_to_bmi_witness :
    compute_framingham_risk recMissingTg =
      .ok ⟨sexOf recMissingTg, "bmi",
        bmiXb framingham_params_male.bmi.coefficients (recMissingTg.BP_Treated.getD false)
          (if recMissingTg.Cigarettes.getD 0 > 0 then 1 else 0)
          (if recMissingTg.Fasting_Glucose_mg_dl.getD 0 ≥ 126 ∨
              recMissingTg.HbA1c_percent.getD 0 ≥ 13/2 then 1 else 0)
          45 (80 / (175 / 100) ^ 2) 130,
        framingham_params_male.bmi.mean_xbeta,
        hazardRisk framingham_params_male.bmi.baseline_survival
          framingham_params_male.bmi.mean_xbeta
          (bmiXb framingham_params_male.bmi.coefficients (recMissingTg.BP_Treated.getD false)
            (if recMissingTg.Cigarettes.getD 0 > 0 then 1 else 0)
            (if recMissingTg.Fasting_Glucose_mg_dl.getD 0 ≥ 126 ∨
                recMissingTg.HbA1c_percent.getD 0 ≥ 13/2 then 1 else 0)
            45 (80 / (175 / 100) ^ 2) 130),
        framingham_params_male.bmi.baseline_survival⟩ :=
  C2_missing_lipid_routes_to_bmi recMissingTg 130 45 175 80 framingham_params_male
    (Or.inr (Or.inr rfl)) rfl rfl rfl rfl rfl (by norm_num) (by norm_num) (by norm_num)
    (by norm_num)

/-! ## C3 — error characterization -/


theorem framLipid_isOk_iff (sex : String) (sbp : ℚ) (treated : Bool)
    (smoker diabetes age hdl ldl tg : ℚ) :
    (framLipid sex sbp treated smoker diabetes age hdl ldl tg).isOk = true ↔
      (sex = "male" ∨ sex = "female") ∧
        0 < age ∧ 0 < ldl + hdl + tg / 5 ∧ 0 < hdl ∧ 0 < sbp := by
  by_cases h1 : sex = "male"
  · subst h1
    have hp : lookupSexParams "male" = .ok framingham_params_male := rfl
    simp only [framLipid, hp]
    split_ifs with g1 g2 g3 g4
    · exact iff_of_false (by simp [Except.isOk, Except.toBool])
        (by rintro ⟨_, ha, -⟩; linarith)
    · exact iff_of_false (by simp [Except.isOk, Except.toBool])
        (by rintro ⟨_, -, hb, -⟩; linarith)
    · exact iff_of_false (by simp [Except.isOk, Except.toBool])
        (by rintro ⟨_, -, -, hc, -⟩; linarith)
    · exact iff_of_false (by simp [Except.isOk, Except.toBool])
        (by rintro ⟨_, -, -, -, hd⟩; linarith)
    · exact iff_of_true rfl
        ⟨Or.inl trivial, not_le.mp g1, not_le.mp g2, not_le.mp g3, not_le.mp g4⟩
  · by_cases h2 : sex = "female"
    · subst h2
      have hp : lookupSexParams "female" = .ok framingham_params_female := rfl
      simp only [framLipid, hp]
      split_ifs with g1 g2 g3 g4
      · exact iff_of_false (by simp [Except.isOk, Except.toBool])
          (by rintro ⟨_, ha, -⟩; linarith)
      · exact iff_of_false (by simp [Except.isOk, Except.toBool])
          (by rintro ⟨_, -, hb, -⟩; linarith)
      · exact iff_of_false (by simp [Except.isOk, Except.toBool])
          (by rintro ⟨_, -, -, hc, -⟩; linarith)
      · exact iff_of_false (by simp [Except.isOk, Except.toBool])
          (by rintro ⟨_, -, -, -, hd⟩; linarith)
      · exact iff_of_true rfl
          ⟨Or.inr trivial, not_le.mp g1, not_le.mp g2, not_le.mp g3, not_le.mp g4⟩
    · have hp : lookupSexParams sex = .error (.keyError sex) := by
        simp [lookupSexParams, h1, h2]
      simp only [framLipid, hp]
      exact iff_of_false (by simp [Except.isOk, Except.toBool])
        (by rintro ⟨hmf | hmf, -⟩ <;> [exact h1 hmf; exact h2 hmf])

theorem framLipid_keyError_iff (sex : String) (sbp : ℚ) (treated : Bool)
    (smoker diabetes age hdl ldl tg : ℚ) :
    framLipid sex sbp treated smoker diabetes age hdl ldl tg = .error (.keyError sex) ↔
      ¬(sex = "male" ∨ sex = "female") := by
  by_cases h1 : sex = "male"
  · subst h1
    have hp : lookupSexParams "male" = .ok framingham_params_male := rfl
    simp only [framLipid, hp]
    split_ifs <;>
      exact iff_of_false (by simp) (by push_neg; exact Or.inl trivial)
  · by_cases h2 : sex = "female"
    · subst h2
      have hp : lookupSexParams "female" = .ok framingham_params_female := rfl
      simp only [framLipid, hp]
      split_ifs <;>
        exact iff_of_false (by simp) (by push_neg; exact Or.inr trivial)
    · have hp : lookupSexParams sex = .error (.keyError sex) := by
        simp [lookupSexParams, h1, h2]
      simp only [framLipid, hp, eq_self_iff_true]
      exact iff_of_true trivial (by rintro (hmf | hmf) <;> [exact h1 hmf; exact h2 hmf])

theorem framLipid_domainError_iff (sex : String) (sbp : ℚ) (treated : Bool)
    (smoker diabetes age hdl ldl tg : ℚ) :
    framLipid sex sbp treated smoker diabetes age hdl ldl tg = .error .mathDomainError ↔
      (sex = "male" ∨ sex = "female") ∧
        (age ≤ 0 ∨ ldl + hdl + tg / 5 ≤ 0 ∨ hdl ≤ 0 ∨ sbp ≤ 0) := by
  by_cases h1 : sex = "male"
  · subst h1
    have hp : lookupSexParams "male" = .ok framingham_params_male := rfl
    simp only [framLipid, hp]
    split_ifs with g1 g2 g3 g4
    · exact iff_of_true rfl ⟨Or.inl trivial, Or.inl g1⟩
    · exact iff_of_true rfl ⟨Or.inl trivial, Or.inr (Or.inl g2)⟩
    · exact iff_of_true rfl ⟨Or.inl trivial, Or.inr (Or.inr (Or.inl g3))⟩
    · exact iff_of_true rfl ⟨Or.inl trivial, Or.inr (Or.inr (Or.inr g4))⟩
    · exact iff_of_false (by simp) (by rintro ⟨-, ha | hb | hc | hd⟩ <;> linarith)
  · by_cases h2 : sex = "female"
    · subst h2
      have hp : lookupSexParams "female" = .ok framingham_params_female := rfl
      simp only [framLipid, hp]
      split_ifs with g1 g2 g3 g4
      · exact iff_of_true rfl ⟨Or.inr trivial, Or.inl g1⟩
      · exact iff_of_true rfl ⟨Or.inr trivial, Or.inr (Or.inl g2)⟩
      · exact iff_of_true rfl ⟨Or.inr trivial, Or.inr (Or.inr (Or.inl g3))⟩
      · exact iff_of_true rfl ⟨Or.inr trivial, Or.inr (Or.inr (Or.inr g4))⟩
      · exact iff_of_false (by simp) (by rintro ⟨-, ha | hb | hc | hd⟩ <;> linarith)
    · have hp : lookupSexParams sex = .error (.keyError sex) := by
        simp [lookupSexParams, h1, h2]
      simp only [framLipid, hp]
      refine iff_of_false ?_ (by rintro ⟨hmf | hmf, -⟩ <;> [exact h1 hmf; exact h2 hmf])
      intro hcontra
      have : FramErr.keyError sex = FramErr.mathDomainError := by
        injection hcontra
      exact absurd this (by simp)

theorem framBmi_isOk_iff (sex : String) (sbp : ℚ) (treated : Bool)
    (smoker diabetes age height weight : ℚ) (hden : (height / 100) ^ 2 ≠ 0) :
    (framBmi sex sbp treated smoker diabetes age (some height) (some weight)).isOk = true ↔
      (sex = "male" ∨ sex = "female") ∧
        0 < age ∧ 0 < weight / (height / 100) ^ 2 ∧ 0 < sbp := by
  by_cases h1 : sex = "male"
  · subst h1
    have hp : lookupSexParams "male" = .ok framingham_params_male := rfl
    simp only [framBmi, hp, if_neg hden]
    split_ifs with g1 g2 g3
    · exact iff_of_false (by simp [Except.isOk, Except.toBool])
        (by rintro ⟨_, ha, -⟩; linarith)
    · exact iff_of_false (by simp [Except.isOk, Except.toBool])
        (by rintro ⟨_, -, hb, -⟩; linarith)
    · exact iff_of_false (by simp [Except.isOk, Except.toBool])
        (by rintro ⟨_, -, -, hc⟩; linarith)
    · exact iff_of_true rfl ⟨Or.inl trivial, not_le.mp g1, not_le.mp g2, not_le.mp g3⟩
  · by_cases h2 : sex = "female"
    · subst h2
      have hp : lookupSexParams "female" = .ok framingham_params_female := rfl
      simp only [framBmi, hp, if_neg hden]
      split_ifs with g1 g2 g3
      · exact iff_of_false (by simp [Except.isOk, Except.toBool])
          (by rintro ⟨_, ha, -⟩; linarith)
      · exact iff_of_false (by simp [Except.isOk, Except.toBool])
          (by rintro ⟨_, -, hb, -⟩; linarith)
      · exact iff_of_false (by simp [Except.isOk, Except.toBool])
          (by rintro ⟨_, -, -, hc⟩; linarith)
      · exact iff_of_true rfl ⟨Or.inr trivial, not_le.mp g1, not_le.mp g2, not_le.mp g3⟩
    · have hp : lookupSexParams sex = .error (.keyError sex) := by
        simp [lookupSexParams, h1, h2]
      simp only [framBmi, hp, if_neg hden]
      exact iff_of_false (by simp [Except.isOk, Except.toBool])
        (by rintro ⟨hmf | hmf, -⟩ <;> [exact h1 hmf; exact h2 hmf])

theorem framBmi_keyError_iff (sex : String) (sbp : ℚ) (treated : Bool)
    (smoker diabetes age height weight : ℚ) (hden : (height / 100) ^ 2 ≠ 0) :
    framBmi sex sbp treated smoker diabetes age (some height) (some weight) =
        .error (.keyError sex) ↔
      ¬(sex = "male" ∨ sex = "female") := by
  by_cases h1 : sex = "male"
  · subst h1
    have hp : lookupSexParams "male" = .ok framingham_params_male := rfl
    simp only [framBmi, hp, if_neg hden]
    split_ifs <;>
      exact iff_of_false (by simp) (by push_neg; exact Or.inl trivial)
  · by_cases h2 : sex = "female"
    · subst h2
      have hp : lookupSexParams "female" = .ok framingham_params_female := rfl
      simp only [framBmi, hp, if_neg hden]
      split_ifs <;>
        exact iff_of_false (by simp) (by push_neg; exact Or.inr trivial)
    · have hp : lookupSexParams sex = .error (.keyError sex) := by
        simp [lookupSexParams, h1, h2]
      simp only [framBmi, hp, if_neg hden, eq_self_iff_true]
      exact iff_of_true trivial (by rintro (hmf | hmf) <;> [exact h1 hmf; exact h2 hmf])

theorem framBmi_domainError_iff (sex : String) (sbp : ℚ) (treated : Bool)
    (smoker diabetes age height weight : ℚ) (hden : (height / 100) ^ 2 ≠ 0) :
    framBmi sex sbp treated smoker diabetes age (some height) (some weight) =
        .error .mathDomainError ↔
      (sex = "male" ∨ sex = "female") ∧
        (age ≤ 0 ∨ weight / (height / 100) ^ 2 ≤ 0 ∨ sbp ≤ 0) := by
  by_cases h1 : sex = "male"
  · subst h1
    have hp : lookupSexParams "male" = .ok framingham_params_male := rfl
    simp only [framBmi, hp, if_neg hden]
    split_ifs with g1 g2 g3
    · exact iff_of_true rfl ⟨Or.inl trivial, Or.inl g1⟩
    · exact iff_of_true rfl ⟨Or.inl trivial, Or.inr (Or.inl g2)⟩
    · exact iff_of_true rfl ⟨Or.inl trivial, Or.inr (Or.inr g3)⟩
    · exact iff_of_false (by simp) (by rintro ⟨-, ha | hb | hc⟩ <;> linarith)
  · by_cases h2 : sex = "female"
    · subst h2
      have hp : lookupSexParams "female" = .ok framingham_params_female := rfl
      simp only [framBmi, hp, if_neg hden]
      split_ifs with g1 g2 g3
      · exact iff_of_true rfl ⟨Or.inr trivial, Or.inl g1⟩
      · exact iff_of_true rfl ⟨Or.inr trivial, Or.inr (Or.inl g2)⟩
      · exact iff_of_true rfl ⟨Or.inr trivial, Or.inr (Or.inr g3)⟩
      · exact iff_of_false (by simp) (by rintro ⟨-, ha | hb | hc⟩ <;> linarith)
    · have hp : lookupSexParams sex = .error (.keyError sex) := by
        simp [lookupSexParams, h1, h2]
      simp only [framBmi, hp, if_neg hden]
      refine iff_of_false ?_ (by rintro ⟨hmf | hmf, -⟩ <;> [exact h1 hmf; exact h2 hmf])
      intro hcontra
      have hinj : FramErr.keyError sex = FramErr.mathDomainError := by
        injection hcontra
      exact absurd hinj (by simp)

/-- C3 counterexample: on a lipid-complete female record with positive age
(40), positive total cholesterol (200 + (−10) + 50/5 = 200) and positive
systolic BP (120) — so the claim's error condition is false — the function
still fails, with the `math.log` domain error, because its HDL (−10) is
non-positive and the lipid variant also takes `log(HDL)`. -/
theorem C3_negative_hdl_counterexample :
    (0 : ℚ) < 40 ∧ (0 : ℚ) < 200 + (-10) + 50 / 5 ∧ (0 : ℚ) < 120 ∧
    sexOf recNegativeHdl = "female" ∧
    compute_framingham_risk recNegativeHdl = .error .mathDomainError := by
  refine ⟨by norm_num, by norm_num, by norm_num, rfl, ?_⟩
  rw [compute_lipid recNegativeHdl rfl rfl rfl rfl rfl]
  exact (framLipid_domainError_iff _ _ _ _ _ _ _ _ _).mpr
    ⟨Or.inr rfl, Or.inr (Or.inr (Or.inl (by norm_num)))⟩

/-- C3 amended: with the required keys present, `compute_framingham_risk`
fails with the coefficient-table `KeyError` (the code has no
`UnknownModelVariantError` class) exactly when the lowered sex string is
outside {male, female} — this error takes precedence over the value checks —
and fails with the `math.log` `ValueError` (the code has no
`InvalidInputError` class) exactly when the sex is valid and age, the
variant's cholesterol/BMI input, the systolic BP, or — in the lipid
variant — also the HDL value is non-positive; it succeeds exactly when the
sex is valid and all logged inputs are positive. (The BMI half assumes a
non-zero height, whose square otherwise raises `ZeroDivisionError` first.) -/
theorem C3_error_conditions :
    (∀ (u : HealthRecord) (sv av hv lv tv : ℚ),
      u.Systolic_BP = some sv → u.Age = some av →
      u.HDL_mg_dl = some hv → u.LDL_mg_dl = some lv → u.Triglycerides_mg_dl = some tv →
      ((compute_framingham_risk u).isOk = true ↔
        (sexOf u = "male" ∨ sexOf u = "female") ∧
          0 < av ∧ 0 < lv + hv + tv / 5 ∧ 0 < hv ∧ 0 < sv) ∧
      (compute_framingham_risk u = .error (.keyError (sexOf u)) ↔
        ¬(sexOf u = "male" ∨ sexOf u = "female")) ∧
      (compute_framingham_risk u = .error .mathDomainError ↔
        (sexOf u = "male" ∨ sexOf u = "female") ∧
          (av ≤ 0 ∨ lv + hv + tv / 5 ≤ 0 ∨ hv ≤ 0 ∨ sv ≤ 0))) ∧
    (∀ (u : HealthRecord) (sv av hq wq : ℚ),
      u.Systolic_BP = some sv → u.Age = some av →
      (u.HDL_mg_dl = none ∨ u.LDL_mg_dl = none ∨ u.Triglycerides_mg_dl = none) →
      u.Height_cm = some hq → u.Weight_kg = some wq → (hq / 100) ^ 2 ≠ 0 →
      ((compute_framingham_risk u).isOk = true ↔
        (sexOf u = "male" ∨ sexOf u = "female") ∧
          0 < av ∧ 0 < wq / (hq / 100) ^ 2 ∧ 0 < sv) ∧
      (compute_framingham_risk u = .error (.keyError (sexOf u)) ↔
        ¬(sexOf u = "male" ∨ sexOf u = "female")) ∧
      (compute_framingham_risk u = .error .mathDomainError ↔
        (sexOf u = "male" ∨ sexOf u = "female") ∧
          (av ≤ 0 ∨ wq / (hq / 100) ^ 2 ≤ 0 ∨ sv ≤ 0))) := by
  constructor
  · intro u sv av hv lv tv hS hA hH hL hT
    rw [compute_lipid u hS hA hH hL hT]
    exact ⟨framLipid_isOk_iff _ _ _ _ _ _ _ _ _,
      framLipid_keyError_iff _ _ _ _ _ _ _ _ _,
      framLipid_domainError_iff _ _ _ _ _ _ _ _ _⟩
  · intro u sv av hq wq hS hA hmiss hH hW hden
    rw [compute_bmi u hS hA hmiss, hH, hW]
    exact ⟨framBmi_isOk_iff _ _ _ _ _ _ _ _ hden,
      framBmi_keyError_iff _ _ _ _ _ _ _ _ hden,
      framBmi_domainError_iff _ _ _ _ _ _ _ _ hden⟩

/-- C3 witness: the characterization at a lipid-complete record whose sex
string lowers to "other". -/
theorem C3_error_conditions_witness :
    ((compute_framingham_risk recOtherSex).isOk = true ↔
      (sexOf recOtherSex = "male" ∨ sexOf recOtherSex = "female") ∧
        (0 : ℚ) < 40 ∧ (0 : ℚ) < 100 + 50 + 100 / 5 ∧ (0 : ℚ) < 50 ∧ (0 : ℚ) < 120) ∧
    (compute_framingham_risk recOtherSex = .error (.keyError (sexOf recOtherSex)) ↔
      ¬(sexOf recOtherSex = "male" ∨ sexOf recOtherSex = "female")) ∧
    (compute_framingham_risk recOtherSex = .error .mathDomainError ↔
      (sexOf recOtherSex = "male" ∨ sexOf recOtherSex = "female") ∧
        ((40 : ℚ) ≤ 0 ∨ (100 : ℚ) + 50 + 100 / 5 ≤ 0 ∨ (50 : ℚ) ≤ 0 ∨ (120 : ℚ) ≤ 0)) :=
  C3_error_conditions.1 recOtherSex 120 40 50 100 100 rfl rfl rfl rfl rfl

/-! ## C4 — monotonicity of the lipid-variant risk -/

theorem hazardRisk_mono {s0 m : ℚ} (hs0 : 0 < s0) (hs1 : s0 < 1) {x y : ℝ} (hxy : x ≤ y) :
    hazardRisk s0 m x ≤ hazardRisk s0 m y := by
  unfold hazardRisk
  have h := Real.rpow_le_rpow_of_exponent_ge (x := ((s0 : ℚ) : ℝ))
    (by exact_mod_cast hs0) (by exact_mod_cast hs1.le)
    (Real.exp_le_exp.mpr (by linarith : x - (m : ℝ) ≤ y - (m : ℝ)))
  linarith

theorem lipidXb_mono_age (c : LipidCoefficients) (treated : Bool) (smoker diabetes : ℚ)
    {a a' tc hdl sbp : ℚ} (hca : 0 < c.age) (ha : 0 < a) (haa : a ≤ a') :
    lipidXb c treated smoker diabetes a tc hdl sbp ≤
      lipidXb c treated smoker diabetes a' tc hdl sbp := by
  unfold lipidXb
  have hlog : Real.log (a : ℝ) ≤ Real.log (a' : ℝ) :=
    Real.log_le_log (by exact_mod_cast ha) (by exact_mod_cast haa)
  have hmul : (c.age : ℝ) * Real.log (a : ℝ) ≤ (c.age : ℝ) * Real.log (a' : ℝ) :=
    mul_le_mul_of_nonneg_left hlog (by exact_mod_cast hca.le)
  linarith

theorem lipidXb_mono_total (c : LipidCoefficients) (treated : Bool) (smoker diabetes : ℚ)
    {a tc tc' hdl sbp : ℚ} (hct : 0 < c.total_chol) (htc : 0 < tc) (htt : tc ≤ tc') :
    lipidXb c treated smoker diabetes a tc hdl sbp ≤
      lipidXb c treated smoker diabetes a tc' hdl sbp := by
  unfold lipidXb
  have hlog : Real.log (tc : ℝ) ≤ Real.log (tc' : ℝ) :=
    Real.log_le_log (by exact_mod_cast htc) (by exact_mod_cast htt)
  have hmul : (c.total_chol : ℝ) * Real.log (tc : ℝ) ≤ (c.total_chol : ℝ) * Real.log (tc' : ℝ) :=
    mul_le_mul_of_nonneg_left hlog (by exact_mod_cast hct.le)
  linarith

theorem lipidXb_mono_sbp (c : LipidCoefficients) (treated : Bool) (smoker diabetes : ℚ)
    {a tc hdl s s' : ℚ} (hcT : 0 < c.sbp_treated) (hcU : 0 < c.sbp_untreated)
    (hs : 0 < s) (hss : s ≤ s') :
    lipidXb c treated smoker diabetes a tc hdl s ≤
      lipidXb c treated smoker diabetes a tc hdl s' := by
  unfold lipidXb
  have hlog : Real.log (s : ℝ) ≤ Real.log (s' : ℝ) :=
    Real.log_le_log (by exact_mod_cast hs) (by exact_mod_cast hss)
  have hcpos : (0 : ℚ) < (if treated then c.sbp_treated else c.sbp_untreated) := by
    cases treated <;> simpa using (by assumption : _)
  have hmul : ((if treated then c.sbp_treated else c.sbp_untreated : ℚ) : ℝ) * Real.log (s : ℝ) ≤
      ((if treated then c.sbp_treated else c.sbp_untreated : ℚ) : ℝ) * Real.log (s' : ℝ) :=
    mul_le_mul_of_nonneg_left hlog (by exact_mod_cast hcpos.le)
  linarith

theorem riskOf_lipid (u : HealthRecord) (sv av hv lv tv : ℚ) (p : SexParams)
    (hS : u.Systolic_BP = some sv) (hA : u.Age = some av)
    (hH : u.HDL_mg_dl = some hv) (hL : u.LDL_mg_dl = some lv)
    (hT : u.Triglycerides_mg_dl = some tv)
    (hp : lookupSexParams (sexOf u) = .ok p)
    (hage : 0 < av) (htot : 0 < lv + hv + tv / 5) (hhdl : 0 < hv) (hsbp : 0 < sv) :
    riskOf u = hazardRisk p.lipid.baseline_survival p.lipid.mean_xbeta
      (lipidXb p.lipid.coefficients (u.BP_Treated.getD false)
        (if u.Cigarettes.getD 0 > 0 then 1 else 0)
        (if u.Fasting_Glucose_mg_dl.getD 0 ≥ 126 ∨ u.HbA1c_percent.getD 0 ≥ 13/2 then 1 else 0)
        av (lv + hv + tv / 5) hv sv) := by
  unfold riskOf
  rw [compute_lipid u hS hA hH hL hT, framLipid_pos hp hage htot hhdl hsbp]

/-- C4: on every valid lipid-complete record (positive age, total
cholesterol, HDL and systolic BP; sex in the coefficient table) the risk
`compute_framingham_risk` returns is monotonically non-decreasing in age,
in systolic BP and in LDL, each with every other field held fixed. -/
theorem C4_monotone_age_sbp_ldl (u : HealthRecord) (sv av hv lv tv : ℚ) (p : SexParams)
    (hS : u.Systolic_BP = some sv) (hA : u.Age = some av)
    (hH : u.HDL_mg_dl = some hv) (hL : u.LDL_mg_dl = some lv)
    (hT : u.Triglycerides_mg_dl = some tv)
    (hp : lookupSexParams (sexOf u) = .ok p)
    (hage : 0 < av) (htot : 0 < lv + hv + tv / 5) (hhdl : 0 < hv) (hsbp : 0 < sv) :
    (∀ a' : ℚ, av ≤ a' → riskOf u ≤ riskOf { u with Age := some a' }) ∧
    (∀ s' : ℚ, sv ≤ s' → riskOf u ≤ riskOf { u with Systolic_BP := some s' }) ∧
    (∀ l' : ℚ, lv ≤ l' → riskOf u ≤ riskOf { u with LDL_mg_dl := some l' }) := by
  have hcs : 0 < p.lipid.coefficients.age ∧ 0 < p.lipid.coefficients.total_chol ∧
      0 < p.lipid.coefficients.sbp_treated ∧ 0 < p.lipid.coefficients.sbp_untreated ∧
      0 < p.lipid.baseline_survival ∧ p.lipid.baseline_survival < 1 := by
    rcases lookupSexParams_ok_cases hp with ⟨-, hpe⟩ | ⟨-, hpe⟩ <;> subst hpe <;>
      refine ⟨?_, ?_, ?_, ?_, ?_, ?_⟩ <;>
        norm_num [framingham_params_male, framingham_params_female]
  obtain ⟨hcA, hcT, hcBT, hcBU, hs0, hs1⟩ := hcs
  have hbase := riskOf_lipid u sv av hv lv tv p hS hA hH hL hT hp hage htot hhdl hsbp
  refine ⟨?_, ?_, ?_⟩
  · intro a' haa
    have hage' : 0 < a' := lt_of_lt_of_le hage haa
    have hup := riskOf_lipid { u with Age := some a' } sv a' hv lv tv p hS rfl hH hL hT
      hp hage' htot hhdl hsbp
    rw [hbase, hup]
    exact hazardRisk_mono hs0 hs1
      (lipidXb_mono_age p.lipid.coefficients _ _ _ hcA hage haa)
  · intro s' hss
    have hsbp' : 0 < s' := lt_of_lt_of_le hsbp hss
    have hup := riskOf_lipid { u with Systolic_BP := some s' } s' av hv lv tv p rfl hA hH hL hT
      hp hage htot hhdl hsbp'
    rw [hbase, hup]
    exact hazardRisk_mono hs0 hs1
      (lipidXb_mono_sbp p.lipid.coefficients _ _ _ hcBT hcBU hsbp hss)
  · intro l' hll
    have htot' : 0 < l' + hv + tv / 5 := by linarith
    have hup := riskOf_lipid { u with LDL_mg_dl := some l' } sv av hv l' tv p hS hA hH rfl hT
      hp hage htot' hhdl hsbp
    rw [hbase, hup]
    exact hazardRisk_mono hs0 hs1
      (lipidXb_mono_total p.lipid.coefficients _ _ _ hcT htot (by linarith))

/-- C4 witness: monotonicity at the scenario-A record, raising age to 40,
systolic BP to 120 and LDL to 150. -/
theorem C4_monotone_age_sbp_ldl_witness :
    riskOf scenarioA ≤ riskOf { scenarioA with Age := some 40 } ∧
    riskOf scenarioA ≤ riskOf { scenarioA with Systolic_BP := some 120 } ∧
    riskOf scenarioA ≤ riskOf { scenarioA with LDL_mg_dl := some 150 } := by
  have h := C4_monotone_age_sbp_ldl scenarioA 112 32 58 110 95 framingham_params_female
    rfl rfl rfl rfl rfl rfl (by norm_num) (by norm_num) (by norm_num) (by norm_num)
  exact ⟨h.1 40 (by norm_num), h.2.1 120 (by norm_num), h.2.2 150 (by norm_num)⟩

/-! ## C7 and C10 — required fields of `calculate_metrics` -/

theorem calculate_metrics_ok_present (r : HealthRecord)
    (h : (calculate_metrics r).isOk = true) :
    r.Weight_kg.isSome ∧ r.Height_cm.isSome ∧ r.Waist_cm.isSome ∧ r.Systolic_BP.isSome ∧
    r.Diastolic_BP.isSome ∧ r.Resting_Heart_Rate.isSome ∧ r.Sleep_hours.isSome ∧
    r.Screen_hours.isSome ∧ r.Fruits.isSome ∧ r.Vegetables.isSome ∧
    r.Water_glasses.isSome := by
  rcases hW : r.Weight_kg with _ | w
  · exact absurd h (by simp [calculate_metrics, hW, Except.isOk, Except.toBool])
  rcases hH : r.Height_cm with _ | hgt
  · exact absurd h (by simp [calculate_metrics, hW, hH, Except.isOk, Except.toBool])
  by_cases hden : ((hgt : ℚ) / 100) ^ 2 = 0
  · exact absurd h (by simp [calculate_metrics, hW, hH, hden, Except.isOk, Except.toBool])
  rcases hWa : r.Waist_cm with _ | wa
  · exact absurd h
      (by simp [calculate_metrics, hW, hH, hden, hWa, Except.isOk, Except.toBool])
  rcases hS : r.Systolic_BP with _ | sbp
  · exact absurd h
      (by simp [calculate_metrics, hW, hH, hden, hWa, hS, Except.isOk, Except.toBool])
  rcases hD : r.Diastolic_BP with _ | dbp
  · exact absurd h
      (by simp [calculate_metrics, hW, hH, hden, hWa, hS, hD, Except.isOk, Except.toBool])
  rcases hR : r.Resting_Heart_Rate with _ | rhr
  · exact absurd h
      (by simp [calculate_metrics, hW, hH, hden, hWa, hS, hD, hR, Except.isOk, Except.toBool])
  rcases hSl : r.Sleep_hours with _ | sl
  · exact absurd h
      (by simp [calculate_metrics, hW, hH, hden, hWa, hS, hD, hR, hSl,
        Except.isOk, Except.toBool])
  rcases hSc : r.Screen_hours with _ | sc
  · exact absurd h
      (by simp [calculate_metrics, hW, hH, hden, hWa, hS, hD, hR, hSl, hSc,
        Except.isOk, Except.toBool])
  rcases hF : r.Fruits with _ | fr
  · exact absurd h
      (by simp [calculate_metrics, hW, hH, hden, hWa, hS, hD, hR, hSl, hSc, hF,
        Except.isOk, Except.toBool])
  rcases hV : r.Vegetables with _ | ve
  · exact absurd h
      (by simp [calculate_metrics, hW, hH, hden, hWa, hS, hD, hR, hSl, hSc, hF, hV,
        Except.isOk, Except.toBool])
  rcases hWat : r.Water_glasses with _ | wat
  · exact absurd h
      (by simp [calculate_metrics, hW, hH, hden, hWa, hS, hD, hR, hSl, hSc, hF, hV, hWat,
        Except.isOk, Except.toBool])
  simp [hW, hH, hWa, hS, hD, hR, hSl, hSc, hF, hV, hWat]

/-- C7 counterexample: on a record with Age and Gender both absent (and the
six hard-keyed fields plus the lifestyle fields present), `calculate_metrics`
succeeds — Age is defaulted to 30 and Gender to "Female" inside the embedded
heuristic risk score, so their absence does not make the aggregator fail. -/
theorem C7_age_absent_still_succeeds :
    recNoAge.Age = none ∧ recNoAge.Gender = none ∧
    (calculate_metrics recNoAge).isOk = true := by
  refine ⟨rfl, rfl, ?_⟩
  have hden : ((170 : ℚ) / 100) ^ 2 ≠ 0 := by norm_num
  simp [calculate_metrics, estimate_cvd_risk, recNoAge, emptyRecord, hden,
    Except.isOk, Except.toBool]

/-- C7 amended: `calculate_metrics` fails (a `KeyError` from `data[key]`, or
the `ZeroDivisionError` at zero height — there is no
`MissingRequiredFieldError` class) whenever any of the six hard-keyed fields
Height, Weight, Waist, systolic BP, diastolic BP or resting heart rate is
absent; Age and Sex are not among them — they are read with `dict.get`
defaults (30 and "Female") inside the heuristic CVD score, so their absence
alone does not make the aggregator fail (see the counterexample). -/
theorem C7_six_required_fields (r : HealthRecord)
    (hmiss : r.Height_cm = none ∨ r.Weight_kg = none ∨ r.Waist_cm = none ∨
      r.Systolic_BP = none ∨ r.Diastolic_BP = none ∨ r.Resting_Heart_Rate = none) :
    (calculate_metrics r).isOk = false := by
  by_contra hok
  simp only [Bool.not_eq_false] at hok
  obtain ⟨h1, h2, h3, h4, h5, h6, -, -, -, -, -⟩ := calculate_metrics_ok_present r hok
  rcases hmiss with h | h | h | h | h | h <;> simp_all

/-- C7 witness: a record missing its height makes `calculate_metrics` fail. -/
theorem C7_six_required_fields_witness :
    (calculate_metrics recNoHeight).isOk = false :=
  C7_six_required_fields recNoHeight (Or.inl rfl)

/-- C10: whenever `calculate_metrics` returns a metrics record, the five
lifestyle fields `Sleep_hours`, `Screen_hours`, `Fruits`, `Vegetables` and
`Water_glasses` were all present in the input — each is read with a
default-less `dict.get`, and the `None` of an absent field hits a comparison
or an addition (a `TypeError`), so their absence makes the aggregator fail
even though the spec's required-field list does not name them. -/
theorem C10_lifestyle_fields_required (r : HealthRecord)
    (h : (calculate_metrics r).isOk = true) :
    r.Sleep_hours.isSome ∧ r.Screen_hours.isSome ∧ r.Fruits.isSome ∧
    r.Vegetables.isSome ∧ r.Water_glasses.isSome := by
  obtain ⟨-, -, -, -, -, -, h7, h8, h9, h10, h11⟩ := calculate_metrics_ok_present r h
  exact ⟨h7, h8, h9, h10, h11⟩

/-- C10 witness: the complete record succeeds and indeed carries all five
lifestyle fields. -/
theorem C10_lifestyle_fields_required_witness :
    recComplete.Sleep_hours.isSome ∧ recComplete.Screen_hours.isSome ∧
    recComplete.Fruits.isSome ∧ recComplete.Vegetables.isSome ∧
    recComplete.Water_glasses.isSome :=
  C10_lifestyle_fields_required recComplete (by
    have hden : ((165 : ℚ) / 100) ^ 2 ≠ 0 := by norm_num
    simp [calculate_metrics, estimate_cvd_risk, recComplete, emptyRecord, hden,
      Except.isOk, Except.toBool])
